import Mathlib

/-!
Shallow embedding of the appsignals-mcp repository (an MCP server exposing
AWS Application Signals, CloudWatch and X-Ray data as tools) and proofs
about it.  The embedded functions mirror, line by line:

* src/src/mcp_server_appsignals/sli_report_client.py
  (AWSConfig, SLOSummary, MetricDataResult, SLIReport, get_account_id_for_slo,
   get_sli_status, generate_sli_report);
* src/src/mcp_server_appsignals/server.py
  (convert_otel_to_xray_trace_id, get_trace_summaries_paginated,
   get_batch_traces, list_monitored_services, search_transaction_spans,
   list_slis, query_sampled_traces);
* src/appsignals/appsignals.py (list_s3_buckets).

Python conventions are embedded as follows: a Python exception escaping a
function is `Option.none` or an explicit `raised` constructor; a Python
`dict` is an association list in insertion order; a Python float that is
only ever compared, never computed with, is a rational; wall-clock
datetimes are integer parameters (seconds).
-/

set_option autoImplicit false

namespace AppSignals

/-- A Python `Dict[str, str]` in insertion order. -/
abbrev Dict := List (String × String)

/-- Python `d.get(k)`: the value at the first matching key, if any. -/
def dictGet (d : Dict) (k : String) : Option String :=
  (d.find? (fun p => p.1 == k)).map (fun p => p.2)

/-! ## sli_report_client.py -/

/-- `AWSConfig` from sli_report_client.py (lines 21-57).
`aws_account_id = none` models the instance attribute never having been
assigned by `__init__` (reading it then raises AttributeError).
`underKeyAttributes` models the `_key_attributes` instance attribute that
the tool `list_slis` in server.py installs dynamically (line 1172). -/
structure AWSConfig where
  region : String
  period_in_hours : Int
  service_name : String
  service_environment : String
  service_type : String
  aws_account_id : Option String
  underKeyAttributes : Option Dict
deriving DecidableEq

/-- `AWSConfig.__init__` (sli_report_client.py lines 39-52): clamps the
period to 24 hours and assigns `aws_account_id` only when it is non-empty. -/
def AWSConfig.init (region : String) (period_in_hours : Int)
    (service_name : String) (service_environment : String)
    (service_type : String) (aws_account_id : String) : AWSConfig :=
  { region := region
    period_in_hours := min period_in_hours 24
    service_name := service_name
    service_environment := service_environment
    service_type := service_type
    aws_account_id := if aws_account_id != "" then some aws_account_id else none
    underKeyAttributes := none }

/-- The `key_attributes` property (sli_report_client.py lines 54-57).
Returns `none` (AttributeError) when the `aws_account_id` attribute was
never assigned. -/
def AWSConfig.key_attributes (c : AWSConfig) : Option Dict :=
  match c.aws_account_id with
  | none => none
  | some acct =>
      some [("Name", c.service_name), ("Type", c.service_type),
            ("Environment", c.service_environment), ("AwsAccountId", acct)]

/-- `SLOSummary` dataclass (sli_report_client.py lines 60-79); the
`created_time` datetime is embedded as an integer timestamp. -/
structure SLOSummary where
  name : String
  arn : String
  key_attributes : Dict
  operation_name : String
  created_time : Int
  evaluation_type : String
deriving DecidableEq

/-- `MetricDataResult` dataclass (sli_report_client.py lines 82-93);
timestamps as integers, metric values as rationals (they are only ever
compared with 0, never computed with). -/
structure MetricDataResult where
  timestamps : List Int
  values : List ℚ
deriving DecidableEq

/-- `SLIReport` (sli_report_client.py lines 96-156), field per field. -/
structure SLIReport where
  start_time : Int
  end_time : Int
  sli_status : String
  total_slo_count : Nat
  ok_slo_count : Nat
  breached_slo_count : Nat
  breached_slo_names : List String
deriving DecidableEq

/-- Splitting a character list at every occurrence of a separator, with
the semantics of Python `str.split(sep)` for a one-character separator:
empty pieces are kept and the empty input yields one empty piece. -/
def splitOnChar (sep : Char) : List Char → List (List Char)
  | [] => [[]]
  | c :: rest =>
      let r := splitOnChar sep rest
      if c == sep then [] :: r
      else
        match r with
        | [] => [[c]]
        | h :: t => (c :: h) :: t

/-- Python `s.split(sep)` for a one-character separator. -/
def pySplit (s : String) (sep : Char) : List String :=
  (splitOnChar sep s.data).map String.mk

/-- Python `c in s` for a single character. -/
def pyContains (s : String) (c : Char) : Bool :=
  s.data.contains c

/-- Python `s.isdigit()` restricted to ASCII: non-empty and all decimal
digits. -/
def pyIsDigit (s : String) : Bool :=
  !s.data.isEmpty && s.data.all Char.isDigit

/-- Line 272 of sli_report_client.py:
`arn_account_id = slo.arn.split(':')[4] if ':' in slo.arn else ""`.
`none` models the IndexError raised when the split has at most 4 parts. -/
def arnAccountIdField (arn : String) : Option String :=
  if pyContains arn ':' then (pySplit arn ':')[4]? else some ""

/-- `SLIReportClient.get_account_id_for_slo` (sli_report_client.py lines
256-289).  `none` models an escaping IndexError. -/
def get_account_id_for_slo (slo : SLOSummary) : Option String :=
  match arnAccountIdField slo.arn with
  | none => none
  | some arnAcct =>
      if slo.evaluation_type == "RequestBased" then
        match dictGet slo.key_attributes "AwsAccountId" with
        | some acct =>
            if acct != "" && pyIsDigit acct && acct.length == 12 then
              some acct
            else
              some arnAcct
        | none => some arnAcct
      else
        some arnAcct

/-- `SLIReportClient.get_sli_status` (sli_report_client.py lines 291-293). -/
def get_sli_status (num_breaching : Nat) : String :=
  if num_breaching > 0 then "CRITICAL" else "OK"

/-- The breach test from `generate_sli_report` (sli_report_client.py line
330): `result.values and len(result.values) > 0 and result.values[0] > 0`. -/
def isBreaching (r : MetricDataResult) : Bool :=
  match r.values with
  | [] => false
  | v :: _ => decide (0 < v)

/-- `SLIReportClient.generate_sli_report` (sli_report_client.py lines
295-346), with the wall-clock start and end times passed in and the AWS
responses (SLO summaries and metric data results) passed as arguments.
`none` models the IndexError raised by `slo_summaries[i]` when CloudWatch
returns more metric results than there are SLO summaries. -/
def generate_sli_report (start_time end_time : Int)
    (slo_summaries : List SLOSummary)
    (metric_results : List MetricDataResult) : Option SLIReport :=
  if slo_summaries.isEmpty then
    some ⟨start_time, end_time, "OK", 0, 0, 0, []⟩
  else if slo_summaries.length < metric_results.length then
    none
  else
    let pairs := metric_results.zip slo_summaries
    let breaching := (pairs.filter (fun p => isBreaching p.1)).map (fun p => p.2.arn)
    let healthy := (pairs.filter (fun p => !isBreaching p.1)).map (fun p => p.2.arn)
    some ⟨start_time, end_time, get_sli_status breaching.length,
          slo_summaries.length, healthy.length, breaching.length, breaching⟩

/-! ## server.py: X-Ray pagination helpers -/

/-- One response page of the X-Ray `get_trace_summaries` API:
the `TraceSummaries` list and the optional `NextToken`. -/
structure TracePage (α : Type) where
  traces : List α
  nextToken : Option String
deriving DecidableEq

/-- Outcome of one `get_trace_summaries` request: a page, or an exception
raised by the request. -/
inductive PageResult (α : Type) where
  | ok : TracePage α → PageResult α
  | exn : PageResult α
deriving DecidableEq

/-- Python truthiness of the `NextToken` value: `if not next_token` breaks
on a missing token and also on an empty-string token. -/
def tokenPresent (o : Option String) : Bool :=
  match o with
  | none => false
  | some t => !(t == "")

/-- The trace summaries carried by a page result (an exceptional request
carries none). -/
def okTraces {α : Type} : PageResult α → List α
  | PageResult.ok p => p.traces
  | PageResult.exn => []

/-- The while loop of `get_trace_summaries_paginated` (server.py lines
609-648), instrumented with the number of `get_trace_summaries` requests
made.  `pages` lists the successive responses the X-Ray API produces, in
order; an exhausted list behaves like a raising request (the except branch
at lines 644-648 returns the traces accumulated so far). -/
def pagGo {α : Type} (m : Nat) (pages : List (PageResult α)) (acc : List α) :
    List α × Nat :=
  if acc.length < m then
    match pages with
    | [] => (acc, 1)
    | PageResult.exn :: _ => (acc, 1)
    | PageResult.ok p :: rest =>
        let acc2 := acc ++ p.traces
        if tokenPresent p.nextToken then
          if m ≤ acc2.length then (acc2.take m, 1)
          else
            let r := pagGo m rest acc2
            (r.1, r.2 + 1)
        else (acc2, 1)
  else (acc, 0)

/-- `get_trace_summaries_paginated` (server.py lines 592-648): the list of
trace summaries returned. -/
def get_trace_summaries_paginated {α : Type} (m : Nat)
    (pages : List (PageResult α)) : List α :=
  (pagGo m pages []).1

/-- Number of `get_trace_summaries` requests the paginated retrieval makes. -/
def pagesRequested {α : Type} (m : Nat) (pages : List (PageResult α)) : Nat :=
  (pagGo m pages []).2

/-! ## server.py: batch trace retrieval -/

/-- One response of the X-Ray `batch_get_traces` API. -/
structure BatchResponse (β : Type) where
  traces : List β
  unprocessedTraceIds : List String
deriving DecidableEq

/-- Outcome of one `batch_get_traces` request. -/
inductive BatchResult (β : Type) where
  | ok : BatchResponse β → BatchResult β
  | exn : BatchResult β
deriving DecidableEq

/-- The while loop of `get_batch_traces` (server.py lines 167-212),
instrumented with the list of batches submitted to `batch_get_traces`.
Each iteration submits the first 5 remaining ids and then drops them from
the work list, whether the request succeeded, raised, or reported
unprocessed ids (lines 199-209).  `responses` lists the successive API
responses in order; an exhausted list behaves like a raising request. -/
def batchGo {β : Type} (responses : List (BatchResult β)) (ids : List String) :
    List β × List (List String) :=
  match ids with
  | [] => ([], [])
  | id0 :: tl =>
      let batch := (id0 :: tl).take 5
      match responses with
      | [] =>
          let r := batchGo ([] : List (BatchResult β)) ((id0 :: tl).drop 5)
          (r.1, batch :: r.2)
      | BatchResult.exn :: rest =>
          let r := batchGo rest ((id0 :: tl).drop 5)
          (r.1, batch :: r.2)
      | BatchResult.ok resp :: rest =>
          let r := batchGo rest ((id0 :: tl).drop 5)
          (resp.traces ++ r.1, batch :: r.2)
termination_by ids.length
decreasing_by
  all_goals simp [List.length_drop]; omega

/-- `get_batch_traces` (server.py lines 167-212): the traces returned. -/
def get_batch_traces {β : Type} (responses : List (BatchResult β))
    (ids : List String) : List β :=
  (batchGo responses ids).1

/-- The successive batches of trace ids submitted by `get_batch_traces`. -/
def submittedBatches {β : Type} (responses : List (BatchResult β))
    (ids : List String) : List (List String) :=
  (batchGo responses ids).2

/-- Successive 5-element chunks of a list, the last one possibly shorter. -/
def chunks5 (ids : List String) : List (List String) :=
  match ids with
  | [] => []
  | id0 :: tl => (id0 :: tl).take 5 :: chunks5 ((id0 :: tl).drop 5)
termination_by ids.length
decreasing_by
  all_goals simp [List.length_drop]; omega

/-! ## server.py: trace id conversion -/

/-- `convert_otel_to_xray_trace_id` (server.py lines 62-85) on the list of
characters of the input string.  `Except.error` carries the ValueError
message raised when the input does not have 32 characters; otherwise the
result is `"1-" + first 8 chars + "-" + remaining 24 chars`. -/
def convert_otel_to_xray_trace_id (otel : List Char) : Except String (List Char) :=
  if otel.length ≠ 32 then
    Except.error ("Invalid OTEL trace ID length: " ++ Nat.repr otel.length ++
      ", expected 32")
  else
    Except.ok ('1' :: '-' :: (otel.take 8 ++ '-' :: otel.drop 8))

/-- Removing the inserted `1-` prefix (2 characters) and the hyphen after
the first 8 remaining characters from an X-Ray trace id. -/
def stripXray (r : List Char) : List Char :=
  (r.drop 2).take 8 ++ (r.drop 2).drop 9

/-! ## Tool-level error handling (spec section 7) -/

/-- Outcome of the AWS SDK work done inside a tool body: a successful
value, a botocore `ClientError` carrying the message found at
`e.response["Error"]["Message"]`, or any other exception carrying
`str(e)`. -/
inductive AwsCallOutcome (α : Type) where
  | ok : α → AwsCallOutcome α
  | clientError : String → AwsCallOutcome α
  | otherError : String → AwsCallOutcome α
deriving DecidableEq

/-- Result of invoking a tool: a returned string, or an exception escaping
the tool body. -/
inductive ToolOutcome where
  | ret : String → ToolOutcome
  | raised : String → ToolOutcome
deriving DecidableEq

/-- A `ServiceSummary` entry of the `list_services` response.  A summary
with no `KeyAttributes` key behaves as the empty dict
(`service.get("KeyAttributes", \x7b\x7d)`, server.py line 256). -/
structure ServiceSummary where
  keyAttributes : Dict
deriving DecidableEq

/-- The string appended for one service by the loop of
`list_monitored_services` (server.py lines 254-269). -/
def serviceBlock (s : ServiceSummary) : String :=
  let name := (dictGet s.keyAttributes "Name").getD "Unknown"
  let ty := (dictGet s.keyAttributes "Type").getD "Unknown"
  let base := "• Service: " ++ name ++ "\n" ++ "  Type: " ++ ty ++ "\n"
  let withAttrs :=
    if s.keyAttributes.isEmpty then base
    else
      base ++ "  Key Attributes:\n" ++
        s.keyAttributes.foldl
          (fun acc p => acc ++ "    " ++ p.1 ++ ": " ++ p.2 ++ "\n") ""
  withAttrs ++ "\n"

/-- The success-path formatting of `list_monitored_services` (server.py
lines 244-273) applied to the `ServiceSummaries` of the response. -/
def list_monitored_services_format (services : List ServiceSummary) : String :=
  if services.isEmpty then "No services found in Application Signals."
  else
    services.foldl (fun acc s => acc ++ serviceBlock s)
      ("Application Signals Services (" ++ Nat.repr services.length ++
        " total):\n\n")

/-- The tool `list_monitored_services` (server.py lines 215-282) as a
function of the outcome of its AWS work: both exception handlers return
formatted strings (lines 275-282). -/
def list_monitored_services
    (call : AwsCallOutcome (List ServiceSummary)) : ToolOutcome :=
  match call with
  | AwsCallOutcome.ok services =>
      ToolOutcome.ret (list_monitored_services_format services)
  | AwsCallOutcome.clientError m => ToolOutcome.ret ("AWS Error: " ++ m)
  | AwsCallOutcome.otherError m => ToolOutcome.ret ("Error: " ++ m)

/-- The tool `search_transaction_spans` (server.py lines 993-1085) as a
function of the outcome of its query phase: its single handler
(`except Exception as e: ... raise`, lines 1083-1085) re-raises every
exception, ClientError included.  The successful payload (a dict) is
abstracted to a string. -/
def search_transaction_spans (call : AwsCallOutcome String) : ToolOutcome :=
  match call with
  | AwsCallOutcome.ok body => ToolOutcome.ret body
  | AwsCallOutcome.clientError m => ToolOutcome.raised m
  | AwsCallOutcome.otherError m => ToolOutcome.raised m

/-- A bucket of the `list_buckets` response (appsignals/appsignals.py);
`creationDate` stands for the already-formatted
`CreationDate.strftime("%Y-%m-%d %H:%M:%S")`. -/
structure Bucket where
  name : String
  creationDate : String
deriving DecidableEq

/-- The success-path formatting of `list_s3_buckets`
(src/appsignals/appsignals.py lines 15-28). -/
def list_s3_buckets_format (buckets : List Bucket) : String :=
  if buckets.isEmpty then "No S3 buckets found."
  else
    "S3 Buckets (" ++ Nat.repr buckets.length ++ " total):\n" ++
      String.intercalate "\n"
        (buckets.map (fun b => "• " ++ b.name ++ " (Created: " ++
          b.creationDate ++ ")"))

/-- The tool `list_s3_buckets` (src/appsignals/appsignals.py lines 12-32):
ClientError yields `"AWS Error: ..."` but the generic handler yields
`"Error listing buckets: ..."` (line 32). -/
def list_s3_buckets (call : AwsCallOutcome (List Bucket)) : ToolOutcome :=
  match call with
  | AwsCallOutcome.ok buckets => ToolOutcome.ret (list_s3_buckets_format buckets)
  | AwsCallOutcome.clientError m => ToolOutcome.ret ("AWS Error: " ++ m)
  | AwsCallOutcome.otherError m => ToolOutcome.ret ("Error listing buckets: " ++ m)

/-! ## Module- and class-level state (spec section 5) -/

/-- The getter installed as the class attribute `AWSConfig.key_attributes`:
either the original property of sli_report_client.py lines 54-57, or the
`property(lambda self: self._key_attributes)` that `list_slis` assigns onto
the class with `type(config).key_attributes = ...` (server.py line 1175). -/
inductive KeyAttrGetter where
  | original
  | overridden
deriving DecidableEq

/-- The module- and class-level state observable across tool invocations
that the embedded tools can touch: the current `AWSConfig.key_attributes`
class attribute. -/
structure ModuleState where
  awsConfigGetter : KeyAttrGetter
deriving DecidableEq

/-- The state at import time: the property defined in sli_report_client.py. -/
def initialModuleState : ModuleState :=
  { awsConfigGetter := KeyAttrGetter.original }

/-- Reading `config.key_attributes` under a given module state.  Under the
overridden getter, a config without the `_key_attributes` instance
attribute raises AttributeError (`none`). -/
def readKeyAttributes (st : ModuleState) (c : AWSConfig) : Option Dict :=
  match st.awsConfigGetter with
  | KeyAttrGetter.original => c.key_attributes
  | KeyAttrGetter.overridden => c.underKeyAttributes

/-- Effect of one `list_slis` invocation on class-level state: line 1175 of
server.py replaces the `AWSConfig.key_attributes` class attribute for every
later user of the class. -/
def list_slis_classEffect (st : ModuleState) : ModuleState :=
  { st with awsConfigGetter := KeyAttrGetter.overridden }

/-- Effect of one `list_monitored_services` invocation on module- and
class-level state: its body contains no global or class-level assignment. -/
def list_monitored_services_classEffect (st : ModuleState) : ModuleState := st

/-- Effect of one `search_transaction_spans` invocation on module- and
class-level state: its body contains no global or class-level assignment. -/
def search_transaction_spans_classEffect (st : ModuleState) : ModuleState := st

/-- Effect of one `query_sampled_traces` invocation on module- and
class-level state: its body contains no global or class-level assignment. -/
def query_sampled_traces_classEffect (st : ModuleState) : ModuleState := st

/-- Effect of one `list_s3_buckets` invocation on module- and class-level
state: its body contains no global or class-level assignment. -/
def list_s3_buckets_classEffect (st : ModuleState) : ModuleState := st

/-! ## server.py: query_sampled_traces -/

/-- Result of `query_sampled_traces`: the error JSON built at server.py
lines 1403-1409 (carrying its `error` field), or the success JSON built
from the traces obtained through `get_trace_summaries_paginated` with the
resolved start and end times (lines 1412-1487). -/
inductive QueryOutcome (α : Type) where
  | errorJson : String → QueryOutcome α
  | traces : Int → Int → List α → QueryOutcome α
deriving DecidableEq

/-- Resolution of the end time (server.py lines 1386-1389): `datetime.utcnow()`
when the parameter is omitted (or falsy), otherwise the parsed parameter.
Datetimes are embedded as integer seconds. -/
def resolveEnd (now : Int) (end_time : Option Int) : Int :=
  end_time.getD now

/-- Resolution of the start time (server.py lines 1391-1394): three hours
before the resolved end time when the parameter is omitted (or falsy). -/
def resolveStart (endResolved : Int) (start_time : Option Int) : Int :=
  start_time.getD (endResolved - 3 * 3600)

/-- The tool `query_sampled_traces` (server.py lines 1322-1491): resolves
the time window, rejects windows longer than 6 hours before any X-Ray
trace query (lines 1396-1409), and otherwise retrieves traces through
`get_trace_summaries_paginated` with `max_traces = 100` (lines 1412-1418). -/
def query_sampled_traces {α : Type} (now : Int)
    (start_time end_time : Option Int)
    (pages : List (PageResult α)) : QueryOutcome α :=
  let endResolved := resolveEnd now end_time
  let startResolved := resolveStart endResolved start_time
  if 6 * 3600 < endResolved - startResolved then
    QueryOutcome.errorJson "Time window too large. Maximum allowed is 6 hours."
  else
    QueryOutcome.traces startResolved endResolved
      (get_trace_summaries_paginated 100 pages)

/-! ## Theorems -/

/-- C8 (confirmed): constructing `AWSConfig` with the default
`aws_account_id = ""` never assigns the `aws_account_id` field, so reading
the `key_attributes` property of such a config raises AttributeError
(embedded as `none`); for every non-empty `aws_account_id` the property
returns the dictionary mapping Name, Type, Environment and AwsAccountId to
the configured values; and `period_in_hours` is always stored as
`min(requested, 24)`. -/
theorem awsConfig_init_spec (r : String) (p : Int) (n e t : String) :
    ((AWSConfig.init r p n e t "").aws_account_id = none ∧
      (AWSConfig.init r p n e t "").key_attributes = none) ∧
    (∀ acct : String, acct ≠ "" →
      (AWSConfig.init r p n e t acct).key_attributes =
        some [("Name", n), ("Type", t), ("Environment", e),
              ("AwsAccountId", acct)]) ∧
    (∀ acct : String, (AWSConfig.init r p n e t acct).period_in_hours =
      min p 24) := by
  refine ⟨⟨?_, ?_⟩, ?_, ?_⟩
  · simp [AWSConfig.init]
  · simp [AWSConfig.init, AWSConfig.key_attributes]
  · intro acct h
    simp [AWSConfig.init, AWSConfig.key_attributes, h]
  · intro acct
    simp [AWSConfig.init]

/-- Witness for C8: the theorem applied at a concrete non-empty account
id. -/
theorem awsConfig_init_spec_witness :
    (AWSConfig.init "us-east-1" 30 "svc" "env" "Service"
      "123456789012").key_attributes =
      some [("Name", "svc"), ("Type", "Service"), ("Environment", "env"),
            ("AwsAccountId", "123456789012")] :=
  (awsConfig_init_spec "us-east-1" 30 "svc" "env" "Service").2.1
    "123456789012" (by decide)

/-- C9 (confirmed): `convert_otel_to_xray_trace_id` raises ValueError
exactly when the input does not have 32 characters; on a 32-character
input it returns `"1-" + s[0:8] + "-" + s[8:32]`; the conversion is
injective on 32-character inputs; and removing the inserted `1-` prefix
and the hyphen recovers the original input. -/
theorem convert_otel_spec (s : List Char) :
    (s.length ≠ 32 → convert_otel_to_xray_trace_id s =
      Except.error ("Invalid OTEL trace ID length: " ++ Nat.repr s.length ++
        ", expected 32")) ∧
    (s.length = 32 → convert_otel_to_xray_trace_id s =
      Except.ok ('1' :: '-' :: (s.take 8 ++ '-' :: s.drop 8))) ∧
    (∀ t : List Char, s.length = 32 → t.length = 32 →
      convert_otel_to_xray_trace_id s = convert_otel_to_xray_trace_id t →
      s = t) ∧
    (∀ r : List Char, s.length = 32 →
      convert_otel_to_xray_trace_id s = Except.ok r → stripXray r = s) := by
  refine ⟨?_, ?_, ?_, ?_⟩
  · intro h
    simp [convert_otel_to_xray_trace_id, h]
  · intro h
    simp [convert_otel_to_xray_trace_id, h]
  · intro t hs ht heq
    rw [convert_otel_to_xray_trace_id, convert_otel_to_xray_trace_id] at heq
    simp [hs, ht] at heq
    have hlen : (s.take 8).length = (t.take 8).length := by
      simp [List.length_take, hs, ht]
    obtain ⟨h1, h2⟩ := List.append_inj heq hlen
    have h3 : s.drop 8 = t.drop 8 := by
      injection h2
    calc s = s.take 8 ++ s.drop 8 := (List.take_append_drop 8 s).symm
    _ = t.take 8 ++ t.drop 8 := by rw [h1, h3]
    _ = t := List.take_append_drop 8 t
  · intro r hs hok
    have hform : convert_otel_to_xray_trace_id s =
        Except.ok ('1' :: '-' :: (s.take 8 ++ '-' :: s.drop 8)) := by
      simp [convert_otel_to_xray_trace_id, hs]
    rw [hform] at hok
    have hr : r = '1' :: '-' :: (s.take 8 ++ '-' :: s.drop 8) := by
      injection hok with h
      exact h.symm
    subst hr
    rw [stripXray]
    have hd : List.drop 2 ('1' :: '-' :: (s.take 8 ++ '-' :: s.drop 8)) =
        s.take 8 ++ '-' :: s.drop 8 := rfl
    rw [hd]
    have htl : (s.take 8).length = 8 := by simp [List.length_take, hs]
    have h1 : (s.take 8 ++ '-' :: s.drop 8).take 8 = s.take 8 :=
      List.take_left' htl
    have h2 : (s.take 8 ++ '-' :: s.drop 8).drop 9 = s.drop 8 := by
      have hsplit : s.take 8 ++ '-' :: s.drop 8 =
          (s.take 8 ++ ['-']) ++ s.drop 8 := by simp
      rw [hsplit]
      have hl9 : (s.take 8 ++ ['-']).length = 9 := by simp [htl]
      exact List.drop_left' hl9
    rw [h1, h2]
    exact List.take_append_drop 8 s

/-- Witness for C9: the round trip evaluated on a concrete 32-character
trace id. -/
theorem convert_otel_spec_witness :
    stripXray ('1' :: '-' ::
      ((String.data "0123456789abcdef0123456789abcdef").take 8 ++
        '-' :: (String.data "0123456789abcdef0123456789abcdef").drop 8)) =
      String.data "0123456789abcdef0123456789abcdef" :=
  (convert_otel_spec (String.data "0123456789abcdef0123456789abcdef")).2.2.2
    _ (by decide) rfl

/-- C1 (counterexample): the tool `search_transaction_spans` does not turn
exceptions into a returned `"Error: ..."` string: its handler re-raises,
so the exception escapes the tool invocation. -/
theorem search_transaction_spans_raises :
    search_transaction_spans (AwsCallOutcome.otherError "boom") =
      ToolOutcome.raised "boom" ∧
    search_transaction_spans (AwsCallOutcome.otherError "boom") ≠
      ToolOutcome.ret ("Error: " ++ "boom") := by
  exact ⟨rfl, by decide⟩

/-- C1 (amended): the tools that catch exceptions format them as claimed
for ClientError, but the generic prefix varies by tool
(`list_s3_buckets` uses `"Error listing buckets: "`), and
`search_transaction_spans` re-raises both ClientError and generic
exceptions instead of returning a string. -/
theorem tool_error_handling (m : String) :
    list_monitored_services (AwsCallOutcome.clientError m) =
      ToolOutcome.ret ("AWS Error: " ++ m) ∧
    list_monitored_services (AwsCallOutcome.otherError m) =
      ToolOutcome.ret ("Error: " ++ m) ∧
    list_s3_buckets (AwsCallOutcome.clientError m) =
      ToolOutcome.ret ("AWS Error: " ++ m) ∧
    list_s3_buckets (AwsCallOutcome.otherError m) =
      ToolOutcome.ret ("Error listing buckets: " ++ m) ∧
    search_transaction_spans (AwsCallOutcome.clientError m) =
      ToolOutcome.raised m ∧
    search_transaction_spans (AwsCallOutcome.otherError m) =
      ToolOutcome.raised m :=
  ⟨rfl, rfl, rfl, rfl, rfl, rfl⟩

/-- C2 (counterexample): one `list_slis` invocation changes class-level
state observable by later invocations: it permanently replaces the
`AWSConfig.key_attributes` class property, after which reading
`key_attributes` on a freshly constructed config raises AttributeError
instead of returning its dictionary. -/
theorem list_slis_mutates_class_state :
    list_slis_classEffect initialModuleState ≠ initialModuleState ∧
    readKeyAttributes (list_slis_classEffect initialModuleState)
      (AWSConfig.init "us-east-1" 24 "svc" "env" "Service" "123456789012") =
      none ∧
    readKeyAttributes initialModuleState
      (AWSConfig.init "us-east-1" 24 "svc" "env" "Service" "123456789012") =
      some [("Name", "svc"), ("Type", "Service"), ("Environment", "env"),
            ("AwsAccountId", "123456789012")] :=
  ⟨by decide, rfl, by decide⟩

/-- C2 (amended): the embedded tools other than `list_slis` leave module-
and class-level state unchanged, but `list_slis` replaces the
`AWSConfig.key_attributes` class attribute with a property reading the
per-instance `_key_attributes`, so a config without that instance
attribute raises AttributeError afterwards. -/
theorem tool_class_state_effects :
    (∀ st, list_monitored_services_classEffect st = st) ∧
    (∀ st, search_transaction_spans_classEffect st = st) ∧
    (∀ st, query_sampled_traces_classEffect st = st) ∧
    (∀ st, list_s3_buckets_classEffect st = st) ∧
    (∀ st, (list_slis_classEffect st).awsConfigGetter =
      KeyAttrGetter.overridden) ∧
    (∀ st (c : AWSConfig), c.underKeyAttributes = none →
      readKeyAttributes (list_slis_classEffect st) c = none) ∧
    (∀ c : AWSConfig, readKeyAttributes initialModuleState c =
      c.key_attributes) := by
  refine ⟨fun st => rfl, fun st => rfl, fun st => rfl, fun st => rfl,
    fun st => rfl, ?_, fun c => rfl⟩
  intro st c h
  simp [readKeyAttributes, list_slis_classEffect, h]

/-- Witness for C2 (amended): the mutated state applied to a concrete
config without the `_key_attributes` instance attribute. -/
theorem tool_class_state_effects_witness :
    readKeyAttributes (list_slis_classEffect initialModuleState)
      (AWSConfig.init "us-east-1" 24 "svc" "env" "Service" "123456789012") =
      none :=
  tool_class_state_effects.2.2.2.2.2.1 initialModuleState _ rfl

/-- C10 (confirmed): `query_sampled_traces` rejects resolved windows
longer than 6 hours with the error JSON, without querying X-Ray; an
omitted end time resolves to the current time and an omitted start time
to 3 hours before the resolved end time; and with an omitted start time
the window is exactly 3 hours, so it never triggers the limit. -/
theorem query_sampled_traces_window {α : Type} (now : Int)
    (s e : Option Int) (pages : List (PageResult α)) :
    (6 * 3600 < resolveEnd now e - resolveStart (resolveEnd now e) s →
      query_sampled_traces now s e pages =
        QueryOutcome.errorJson
          "Time window too large. Maximum allowed is 6 hours.") ∧
    (resolveEnd now e - resolveStart (resolveEnd now e) s ≤ 6 * 3600 →
      query_sampled_traces now s e pages =
        QueryOutcome.traces (resolveStart (resolveEnd now e) s)
          (resolveEnd now e) (get_trace_summaries_paginated 100 pages)) ∧
    (e = none → resolveEnd now e = now) ∧
    (s = none → resolveStart (resolveEnd now e) s =
      resolveEnd now e - 3 * 3600) ∧
    (∀ msg, query_sampled_traces now none e pages ≠
      QueryOutcome.errorJson msg) := by
  refine ⟨?_, ?_, ?_, ?_, ?_⟩
  · intro h
    have h' : (21600 : Int) + resolveStart (resolveEnd now e) s <
        resolveEnd now e := by omega
    simp [query_sampled_traces, h']
  · intro h
    have h' : resolveEnd now e ≤
        (21600 : Int) + resolveStart (resolveEnd now e) s := by omega
    simp [query_sampled_traces, h']
  · intro h
    simp [resolveEnd, h]
  · intro h
    simp [resolveStart, h]
  · intro msg
    simp [query_sampled_traces, resolveStart]

/-- Witness for C10: a 25000-second window is rejected, and the default
window is not. -/
theorem query_sampled_traces_window_witness :
    query_sampled_traces (0 : Int) (some (-30000)) (some 0)
      ([] : List (PageResult Nat)) =
      QueryOutcome.errorJson
        "Time window too large. Maximum allowed is 6 hours." ∧
    query_sampled_traces (100000 : Int) none none
      ([] : List (PageResult Nat)) ≠
      QueryOutcome.errorJson
        "Time window too large. Maximum allowed is 6 hours." :=
  ⟨(query_sampled_traces_window 0 (some (-30000)) (some 0) []).1 (by decide),
    (query_sampled_traces_window 100000 none none []).2.2.2.2 _⟩

/-- C3 (counterexample): on an SLO whose ARN contains a colon but fewer
than five colon-separated fields, `get_account_id_for_slo` raises
IndexError (embedded as `none`) instead of returning the fifth field as
the claim states. -/
theorem get_account_id_for_slo_counterexample :
    get_account_id_for_slo ⟨"slo", "a:b", [], "op", 0, "PeriodBased"⟩ =
      none ∧
    pyContains "a:b" ':' = true := by
  exact ⟨by decide, by decide⟩

/-- C3 (amended): `get_account_id_for_slo` returns the key-attribute value
AwsAccountId when the SLO is request-based and that value is a non-empty
string of 12 decimal digits, and otherwise the fifth colon-separated field
of the ARN (the empty string when the ARN has no colon) -- provided the
ARN contains either no colon or at least five colon-separated fields;
`split(":")[4]` is evaluated before any branch, so an ARN with a colon but
fewer than five fields raises IndexError in every case. -/
theorem get_account_id_for_slo_spec (slo : SLOSummary) :
    (slo.evaluation_type = "RequestBased" →
      ∀ acct, dictGet slo.key_attributes "AwsAccountId" = some acct →
        (acct != "" && pyIsDigit acct && acct.length == 12) = true →
        (arnAccountIdField slo.arn).isSome = true →
        get_account_id_for_slo slo = some acct) ∧
    (slo.evaluation_type = "RequestBased" →
      ∀ acct, dictGet slo.key_attributes "AwsAccountId" = some acct →
        (acct != "" && pyIsDigit acct && acct.length == 12) = false →
        get_account_id_for_slo slo = arnAccountIdField slo.arn) ∧
    (slo.evaluation_type = "RequestBased" →
      dictGet slo.key_attributes "AwsAccountId" = none →
      get_account_id_for_slo slo = arnAccountIdField slo.arn) ∧
    (slo.evaluation_type ≠ "RequestBased" →
      get_account_id_for_slo slo = arnAccountIdField slo.arn) ∧
    (pyContains slo.arn ':' = false → arnAccountIdField slo.arn = some "") ∧
    (pyContains slo.arn ':' = true →
      arnAccountIdField slo.arn = (pySplit slo.arn ':')[4]?) := by
  refine ⟨?_, ?_, ?_, ?_, ?_, ?_⟩
  · intro heval acct hacct hcond hsome
    obtain ⟨a, ha⟩ := Option.isSome_iff_exists.mp hsome
    simp [get_account_id_for_slo, ha, heval, hacct, hcond]
  · intro heval acct hacct hcond
    cases ha : arnAccountIdField slo.arn with
    | none => simp [get_account_id_for_slo, ha]
    | some a => simp [get_account_id_for_slo, ha, heval, hacct, hcond]
  · intro heval hacct
    cases ha : arnAccountIdField slo.arn with
    | none => simp [get_account_id_for_slo, ha]
    | some a => simp [get_account_id_for_slo, ha, heval, hacct]
  · intro heval
    cases ha : arnAccountIdField slo.arn with
    | none => simp [get_account_id_for_slo, ha]
    | some a => simp [get_account_id_for_slo, ha, heval]
  · intro h
    simp [arnAccountIdField, h]
  · intro h
    simp [arnAccountIdField, h]

/-- Witness for C3 (amended): a request-based SLO with a valid 12-digit
account id in its key attributes, and a period-based SLO, both with a
well-formed ARN. -/
theorem get_account_id_for_slo_spec_witness :
    get_account_id_for_slo ⟨"s", "arn:aws:application-signals:us-east-1:999988887777:slo/x",
      [("AwsAccountId", "123456789012")], "op", 0, "RequestBased"⟩ =
      some "123456789012" ∧
    get_account_id_for_slo ⟨"s", "arn:aws:application-signals:us-east-1:999988887777:slo/x",
      [], "op", 0, "PeriodBased"⟩ = some "999988887777" := by
  constructor
  · exact (get_account_id_for_slo_spec _).1 (by decide) "123456789012"
      (by decide) (by decide) (by decide)
  · have h := (get_account_id_for_slo_spec
      (⟨"s", "arn:aws:application-signals:us-east-1:999988887777:slo/x",
        [], "op", 0, "PeriodBased"⟩ : SLOSummary)).2.2.2.1 (by decide)
    rw [h]
    decide

/-- Splitting a list by a Boolean predicate preserves its length. -/
theorem length_filter_split {γ : Type} (l : List γ) (p : γ → Bool) :
    (l.filter (fun a => !p a)).length + (l.filter p).length = l.length := by
  have h := List.length_eq_length_filter_add (l := l) p
  omega

/-- The breach test of `generate_sli_report` holds exactly on a non-empty
values list whose first value is positive. -/
theorem isBreaching_iff (md : MetricDataResult) :
    isBreaching md = true ↔ ∃ v vs, md.values = v :: vs ∧ 0 < v := by
  cases hmv : md.values with
  | nil => simp [isBreaching, hmv]
  | cons v vs =>
      simp only [isBreaching, hmv, decide_eq_true_eq]
      constructor
      · intro h
        exact ⟨v, vs, rfl, h⟩
      · rintro ⟨v', vs', he, hv⟩
        have hvv : v = v' := by injection he
        rw [hvv]
        exact hv

/-- C5 (counterexample): when CloudWatch returns fewer metric data results
than there are SLO summaries (here none at all for one SLO),
`generate_sli_report` produces a report with `total_slo_count = 1` but
`ok_slo_count = breached_slo_count = 0`, so the counts do not add up. -/
theorem generate_sli_report_counterexample :
    generate_sli_report 0 1 [⟨"s", "a:b:c:d:e", [], "op", 0, "PeriodBased"⟩]
      [] = some ⟨0, 1, "OK", 1, 0, 0, []⟩ ∧
    (0 + 0 : Nat) ≠ 1 :=
  ⟨by decide, by decide⟩

/-- C5 (amended): whenever CloudWatch returns exactly one metric data
result per SLO summary, the generated report classifies an SLO as
breaching exactly when its result has a non-empty values list with a
positive first value, `sli_status` is CRITICAL exactly when some SLO is
breaching and OK otherwise, `ok_slo_count + breached_slo_count =
total_slo_count`, and `breached_slo_names` lists exactly the ARNs of the
breaching SLOs in order. -/
theorem generate_sli_report_spec (st en : Int) (slos : List SLOSummary)
    (metrics : List MetricDataResult) (h : metrics.length = slos.length) :
    (generate_sli_report st en slos metrics).isSome = true ∧
    (∀ rep, generate_sli_report st en slos metrics = some rep →
      rep.total_slo_count = slos.length ∧
      rep.ok_slo_count + rep.breached_slo_count = rep.total_slo_count ∧
      rep.breached_slo_names =
        ((metrics.zip slos).filter (fun p => isBreaching p.1)).map
          (fun p => p.2.arn) ∧
      rep.breached_slo_count = rep.breached_slo_names.length ∧
      rep.sli_status = get_sli_status rep.breached_slo_count ∧
      (rep.sli_status = "CRITICAL" ↔ 0 < rep.breached_slo_count)) ∧
    (∀ md : MetricDataResult, isBreaching md = true ↔
      ∃ v vs, md.values = v :: vs ∧ 0 < v) ∧
    (∀ n : Nat, (0 < n → get_sli_status n = "CRITICAL") ∧
      (n = 0 → get_sli_status n = "OK")) := by
  refine ⟨?_, ?_, fun md => isBreaching_iff md, ?_⟩
  · rcases slos with _ | ⟨s0, stl⟩
    · simp [generate_sli_report]
    · have hlt : ¬ (s0 :: stl).length < metrics.length := by omega
      rw [generate_sli_report]
      rw [if_neg (by simp), if_neg hlt]
      simp
  · intro rep hrep
    rcases slos with _ | ⟨s0, stl⟩
    · have hm : metrics = [] := List.length_eq_zero.mp (by simpa using h)
      subst hm
      rw [generate_sli_report] at hrep
      rw [if_pos (show ([] : List SLOSummary).isEmpty = true from rfl)] at hrep
      have hrep2 := Option.some.inj hrep
      subst hrep2
      exact ⟨rfl, rfl, by simp, rfl, rfl, by simp⟩
    · have hlt : ¬ (s0 :: stl).length < metrics.length := by omega
      rw [generate_sli_report] at hrep
      rw [if_neg (by simp), if_neg hlt] at hrep
      have hrep2 := Option.some.inj hrep
      subst hrep2
      refine ⟨rfl, ?_, rfl, rfl, rfl, ?_⟩
      · have hzip : (metrics.zip (s0 :: stl)).length = metrics.length := by
          rw [List.length_zip]
          omega
        have hsplit := length_filter_split (metrics.zip (s0 :: stl))
          (fun p => isBreaching p.1)
        simp only [List.length_map]
        omega
      · simp only [List.length_map]
        constructor
        · intro hcrit
          by_contra hn
          rw [get_sli_status, if_neg (by omega)] at hcrit
          exact absurd hcrit (by decide)
        · intro hpos
          rw [get_sli_status, if_pos hpos]
  · intro n
    constructor
    · intro hn
      simp [get_sli_status, hn]
    · intro hn
      simp [get_sli_status, hn]

/-- Witness for C5 (amended): a single breaching SLO, with the count
identity extracted through the theorem. -/
theorem generate_sli_report_spec_witness :
    (SLIReport.mk 0 1 "CRITICAL" 1 0 1 ["a:b:c:d:e"]).ok_slo_count +
      (SLIReport.mk 0 1 "CRITICAL" 1 0 1 ["a:b:c:d:e"]).breached_slo_count =
      (SLIReport.mk 0 1 "CRITICAL" 1 0 1 ["a:b:c:d:e"]).total_slo_count :=
  ((generate_sli_report_spec 0 1
      [⟨"s", "a:b:c:d:e", [], "op", 0, "PeriodBased"⟩]
      [⟨[], [(1 : ℚ)]⟩] (by decide)).2.1
    (SLIReport.mk 0 1 "CRITICAL" 1 0 1 ["a:b:c:d:e"]) (by decide)).2.1

/-- Concatenation of the strings produced for each element of a list. -/
def concatMapStr {γ : Type} (f : γ → String) : List γ → String
  | [] => ""
  | a :: l => f a ++ concatMapStr f l

/-- Accumulating string appends with `foldl` is appending the
concatenation. -/
theorem foldl_append_concat {γ : Type} (f : γ → String) :
    ∀ (l : List γ) (init : String),
      l.foldl (fun acc s => acc ++ f s) init = init ++ concatMapStr f l := by
  intro l
  induction l with
  | nil =>
      intro init
      simp [concatMapStr]
  | cons a l ih =>
      intro init
      simp only [List.foldl_cons, concatMapStr, ih, String.append_assoc]

/-- C7 (confirmed): `list_monitored_services` returns exactly
`"No services found in Application Signals."` on an empty
`ServiceSummaries` list; otherwise the output starts with
`"Application Signals Services (N total):"` for N the number of services
and continues with one block per service, each beginning with a
`"• Service: <name>"` line using the KeyAttributes Name value or
`"Unknown"` when absent. -/
theorem list_monitored_services_format_spec (services : List ServiceSummary) :
    (services = [] → list_monitored_services_format services =
      "No services found in Application Signals.") ∧
    (services ≠ [] → list_monitored_services_format services =
      "Application Signals Services (" ++ Nat.repr services.length ++
        " total):\n\n" ++ concatMapStr serviceBlock services) ∧
    (∀ s, s ∈ services → ∃ rest, serviceBlock s =
      "• Service: " ++ (dictGet s.keyAttributes "Name").getD "Unknown" ++
        "\n" ++ rest) ∧
    (∀ svcs : List ServiceSummary,
      list_monitored_services (AwsCallOutcome.ok svcs) =
        ToolOutcome.ret (list_monitored_services_format svcs)) := by
  refine ⟨?_, ?_, ?_, fun svcs => rfl⟩
  · intro h
    simp [list_monitored_services_format, h]
  · intro h
    rw [list_monitored_services_format,
      if_neg (by simpa [List.isEmpty_iff] using h)]
    rw [foldl_append_concat]
  · intro s hs
    unfold serviceBlock
    cases h : s.keyAttributes.isEmpty
    · refine ⟨"  Type: " ++ (dictGet s.keyAttributes "Type").getD "Unknown" ++
        "\n" ++ "  Key Attributes:\n" ++
        s.keyAttributes.foldl
          (fun acc p => acc ++ "    " ++ p.1 ++ ": " ++ p.2 ++ "\n") "" ++
        "\n", ?_⟩
      simp only [Bool.false_eq_true, if_false, String.append_assoc]
    · refine ⟨"  Type: " ++ (dictGet s.keyAttributes "Type").getD "Unknown" ++
        "\n" ++ "\n", ?_⟩
      simp only [if_true, String.append_assoc]

/-- A concrete service summary used to witness the formatting theorem. -/
def svcExample : ServiceSummary := ⟨[("Name", "svc1"), ("Type", "Service")]⟩

/-- Witness for C7: the format of a concrete non-empty service list. -/
theorem list_monitored_services_format_spec_witness :
    list_monitored_services_format [svcExample] =
      "Application Signals Services (" ++
        Nat.repr (List.length [svcExample]) ++ " total):\n\n" ++
        concatMapStr serviceBlock [svcExample] :=
  (list_monitored_services_format_spec [svcExample]).2.1 (by decide)

/-- Unfolding equation of the pagination loop on an exhausted response
list. -/
theorem pagGo_eq_nil {α : Type} (m : Nat) (acc : List α) :
    pagGo m ([] : List (PageResult α)) acc =
      if acc.length < m then (acc, 1) else (acc, 0) := by
  rw [pagGo]

/-- Unfolding equation of the pagination loop on a raising request. -/
theorem pagGo_eq_exn {α : Type} (m : Nat) (rest : List (PageResult α))
    (acc : List α) :
    pagGo m (PageResult.exn :: rest) acc =
      if acc.length < m then (acc, 1) else (acc, 0) := by
  rw [pagGo]

/-- Unfolding equation of the pagination loop on a successful page. -/
theorem pagGo_eq_ok {α : Type} (m : Nat) (p : TracePage α)
    (rest : List (PageResult α)) (acc : List α) :
    pagGo m (PageResult.ok p :: rest) acc =
      if acc.length < m then
        (if tokenPresent p.nextToken then
          (if m ≤ (acc ++ p.traces).length then ((acc ++ p.traces).take m, 1)
           else ((pagGo m rest (acc ++ p.traces)).1,
             (pagGo m rest (acc ++ p.traces)).2 + 1))
         else (acc ++ p.traces, 1))
      else (acc, 0) := by
  rw [pagGo]

/-- When every page of the response list carries a (truthy) NextToken, the
pagination loop never returns more than `m` traces, given that it starts
within budget. -/
theorem pagGo_length_le {α : Type} (m : Nat) :
    ∀ (pages : List (PageResult α)) (acc : List α),
      (∀ tp : TracePage α, PageResult.ok tp ∈ pages →
        tokenPresent tp.nextToken = true) →
      acc.length ≤ m → (pagGo m pages acc).1.length ≤ m := by
  intro pages
  induction pages with
  | nil =>
      intro acc hall hacc
      rw [pagGo_eq_nil]
      split <;> exact hacc
  | cons pr rest ih =>
      intro acc hall hacc
      cases pr with
      | exn =>
          rw [pagGo_eq_exn]
          split <;> exact hacc
      | ok p =>
          rw [pagGo_eq_ok]
          split
          · have htok : tokenPresent p.nextToken = true :=
              hall p (List.mem_cons_self _ _)
            rw [htok, if_pos rfl]
            split
            · simp [List.length_take]
            · exact ih (acc ++ p.traces)
                (fun tp htp => hall tp (List.mem_cons_of_mem _ htp))
                (by omega)
          · exact hacc

/-- Every request of the pagination loop is made while strictly fewer than
`m` traces have been accumulated. -/
theorem pagGo_budget {α : Type} (m : Nat) :
    ∀ (pages : List (PageResult α)) (acc : List α) (i : Nat),
      i < (pagGo m pages acc).2 →
      (acc ++ ((pages.take i).map okTraces).flatten).length < m := by
  intro pages
  induction pages with
  | nil =>
      intro acc i hi
      rw [pagGo_eq_nil] at hi
      split at hi
      · interval_cases i
        · simpa using (by assumption : acc.length < m)
      · omega
  | cons pr rest ih =>
      intro acc i hi
      cases pr with
      | exn =>
          rw [pagGo_eq_exn] at hi
          split at hi
          · interval_cases i
            · simpa using (by assumption : acc.length < m)
          · omega
      | ok p =>
          rw [pagGo_eq_ok] at hi
          split at hi
          case isFalse => omega
          case isTrue hlt =>
            rcases htok : tokenPresent p.nextToken with _ | _
            · rw [htok] at hi
              simp only [Bool.false_eq_true, if_false] at hi
              interval_cases i
              · simpa using hlt
            · rw [htok, if_pos rfl] at hi
              split at hi
              · interval_cases i
                · simpa using hlt
              · rcases i with _ | j
                · simpa using hlt
                · have hj := ih (acc ++ p.traces) j (by omega)
                  simpa [List.append_assoc, okTraces] using hj

/-- Every page the pagination loop consumes, except possibly the last one,
carries a truthy NextToken. -/
theorem pagGo_token_stop {α : Type} (m : Nat) :
    ∀ (pages : List (PageResult α)) (acc : List α) (i : Nat)
      (tp : TracePage α),
      i + 1 < (pagGo m pages acc).2 →
      pages[i]? = some (PageResult.ok tp) →
      tokenPresent tp.nextToken = true := by
  intro pages
  induction pages with
  | nil =>
      intro acc i tp hi hp
      rw [pagGo_eq_nil] at hi
      split at hi <;> omega
  | cons pr rest ih =>
      intro acc i tp hi hp
      cases pr with
      | exn =>
          rw [pagGo_eq_exn] at hi
          split at hi <;> omega
      | ok p =>
          rw [pagGo_eq_ok] at hi
          split at hi
          case isFalse => omega
          case isTrue hlt =>
            rcases htok : tokenPresent p.nextToken with _ | _
            · rw [htok] at hi
              simp only [Bool.false_eq_true, if_false] at hi
              omega
            · rw [htok, if_pos rfl] at hi
              split at hi
              · omega
              · rcases i with _ | j
                · have : PageResult.ok p = PageResult.ok tp := by
                    simpa using hp
                  have hptp : p = tp := by injection this
                  rw [← hptp]
                  exact htok
                · exact ih (acc ++ p.traces) j tp (by omega) (by simpa using hp)

/-- C4: with `max_traces = 1` and a single response page carrying two
trace summaries and no NextToken, the function returns both summaries.
The truncation to `max_traces` (server.py line 638) sits after the
NextToken break (line 633), so a final page without a token is returned
in full, contradicting the docstring "Maximum number of traces to
retrieve". -/
theorem get_trace_summaries_paginated_counterexample :
    get_trace_summaries_paginated 1
      [PageResult.ok (⟨[0, 1], none⟩ : TracePage Nat)] = [0, 1] ∧
    ¬ (get_trace_summaries_paginated 1
      [PageResult.ok (⟨[0, 1], none⟩ : TracePage Nat)]).length ≤ 1 :=
  ⟨by decide, by decide⟩

/-- C4 (supporting): the parts of the pagination claim the code does
satisfy: `get_trace_summaries_paginated` requests a further page only
while fewer than `max_traces` summaries have been accumulated and stops
when a response carries no (truthy) NextToken; the returned list has at
most `max_traces` entries whenever every response page carries a
NextToken.  Only the final no-token page can push the result past
`max_traces`. -/
theorem get_trace_summaries_paginated_spec {α : Type} (m : Nat)
    (pages : List (PageResult α)) :
    ((∀ tp : TracePage α, PageResult.ok tp ∈ pages →
        tokenPresent tp.nextToken = true) →
      (get_trace_summaries_paginated m pages).length ≤ m) ∧
    (∀ i, i < pagesRequested m pages →
      (((pages.take i).map okTraces).flatten).length < m) ∧
    (∀ i (tp : TracePage α), i + 1 < pagesRequested m pages →
      pages[i]? = some (PageResult.ok tp) →
      tokenPresent tp.nextToken = true) := by
  refine ⟨?_, ?_, ?_⟩
  · intro hall
    exact pagGo_length_le m pages [] hall (by simp)
  · intro i hi
    have h := pagGo_budget m pages [] i hi
    simpa using h
  · intro i tp hi hp
    exact pagGo_token_stop m pages [] i tp hi hp

/-- Witness for C4: two one-trace pages with tokens and a budget of 2
consume both pages and respect the bound. -/
theorem get_trace_summaries_paginated_spec_witness :
    (get_trace_summaries_paginated 2
      [PageResult.ok (⟨[5], some "t"⟩ : TracePage Nat),
       PageResult.ok ⟨[6], some "u"⟩]).length ≤ 2 :=
  (get_trace_summaries_paginated_spec 2
    [PageResult.ok (⟨[5], some "t"⟩ : TracePage Nat),
     PageResult.ok ⟨[6], some "u"⟩]).1
    (by
      intro tp htp
      simp only [List.mem_cons, List.not_mem_nil, or_false] at htp
      rcases htp with h | h <;>
        (injection h with h2
         subst h2
         decide))

/-- When the `i`-th request raises, after `i` token-carrying pages that
stayed within budget, the pagination loop returns exactly the traces of
the first `i` pages. -/
theorem pagGo_exn_result {α : Type} (m : Nat) :
    ∀ (i : Nat) (pages : List (PageResult α)) (acc : List α),
      acc.length < m →
      pages[i]? = some PageResult.exn →
      (∀ j, j < i → ∃ tp : TracePage α,
        pages[j]? = some (PageResult.ok tp) ∧
          tokenPresent tp.nextToken = true) →
      (∀ j, j < i →
        (acc ++ ((pages.take (j + 1)).map okTraces).flatten).length < m) →
      (pagGo m pages acc).1 =
        acc ++ ((pages.take i).map okTraces).flatten := by
  intro i
  induction i with
  | zero =>
      intro pages acc hacc hp hprev hbud
      cases pages with
      | nil => simp at hp
      | cons pr rest =>
          have hpr : pr = PageResult.exn := by simpa using hp
          subst hpr
          rw [pagGo_eq_exn, if_pos hacc]
          simp
  | succ k ih =>
      intro pages acc hacc hp hprev hbud
      cases pages with
      | nil => simp at hp
      | cons pr rest =>
          obtain ⟨tp, hptp, htok⟩ := hprev 0 (Nat.succ_pos k)
          have hpr : pr = PageResult.ok tp := by simpa using hptp
          subst hpr
          have hb0 := hbud 0 (Nat.succ_pos k)
          have hb0x : (acc ++ tp.traces).length < m := by
            simpa [okTraces] using hb0
          rw [pagGo_eq_ok, if_pos hacc, htok, if_pos rfl,
            if_neg (by omega)]
          have hrec := ih rest (acc ++ tp.traces) hb0x
            (by simpa using hp)
            (fun j hj => by
              have hs := hprev (j + 1) (by omega)
              simpa using hs)
            (fun j hj => by
              have hs := hbud (j + 1) (by omega)
              simpa [okTraces, List.append_assoc] using hs)
          rw [hrec]
          simp [okTraces, List.append_assoc]

/-- Unfolding equation of the batch loop on an empty id list. -/
theorem batchGo_eq_nil {β : Type} (responses : List (BatchResult β)) :
    batchGo responses ([] : List String) = ([], []) := by
  simp [batchGo]

/-- Unfolding equation of the batch loop when no response is modeled (the
request raises). -/
theorem batchGo_eq_noresp {β : Type} (id0 : String) (tl : List String) :
    batchGo ([] : List (BatchResult β)) (id0 :: tl) =
      ((batchGo ([] : List (BatchResult β)) ((id0 :: tl).drop 5)).1,
        (id0 :: tl).take 5 ::
          (batchGo ([] : List (BatchResult β)) ((id0 :: tl).drop 5)).2) := by
  conv_lhs => rw [batchGo]

/-- Unfolding equation of the batch loop on a raising request. -/
theorem batchGo_eq_exn {β : Type} (rest : List (BatchResult β))
    (id0 : String) (tl : List String) :
    batchGo (BatchResult.exn :: rest) (id0 :: tl) =
      ((batchGo rest ((id0 :: tl).drop 5)).1,
        (id0 :: tl).take 5 :: (batchGo rest ((id0 :: tl).drop 5)).2) := by
  conv_lhs => rw [batchGo]

/-- Unfolding equation of the batch loop on a successful response. -/
theorem batchGo_eq_ok {β : Type} (resp : BatchResponse β)
    (rest : List (BatchResult β)) (id0 : String) (tl : List String) :
    batchGo (BatchResult.ok resp :: rest) (id0 :: tl) =
      (resp.traces ++ (batchGo rest ((id0 :: tl).drop 5)).1,
        (id0 :: tl).take 5 :: (batchGo rest ((id0 :: tl).drop 5)).2) := by
  conv_lhs => rw [batchGo]

/-- Unfolding equation of `chunks5` on a non-empty list. -/
theorem chunks5_eq_cons (id0 : String) (tl : List String) :
    chunks5 (id0 :: tl) =
      (id0 :: tl).take 5 :: chunks5 ((id0 :: tl).drop 5) := by
  conv_lhs => rw [chunks5]

/-- The batches submitted by the batch loop are the successive 5-chunks of
the id list, whatever the responses are. -/
theorem batchGo_snd_eq_chunks {β : Type} :
    ∀ (n : Nat) (ids : List String), ids.length ≤ n →
      ∀ (responses : List (BatchResult β)),
        (batchGo responses ids).2 = chunks5 ids := by
  intro n
  induction n with
  | zero =>
      intro ids hlen responses
      have hids : ids = [] := List.eq_nil_of_length_eq_zero (by omega)
      subst hids
      rw [batchGo_eq_nil, chunks5]
  | succ k ih =>
      intro ids hlen responses
      cases ids with
      | nil => rw [batchGo_eq_nil, chunks5]
      | cons a tl =>
          have hdrop : ((a :: tl).drop 5).length ≤ k := by
            simp only [List.length_drop, List.length_cons]
            simp only [List.length_cons] at hlen
            omega
          cases responses with
          | nil =>
              rw [batchGo_eq_noresp, chunks5_eq_cons]
              simp only []
              rw [ih ((a :: tl).drop 5) hdrop []]
          | cons r rest =>
              cases r with
              | exn =>
                  rw [batchGo_eq_exn, chunks5_eq_cons]
                  simp only []
                  rw [ih ((a :: tl).drop 5) hdrop rest]
              | ok resp =>
                  rw [batchGo_eq_ok, chunks5_eq_cons]
                  simp only []
                  rw [ih ((a :: tl).drop 5) hdrop rest]

/-- Concatenating the 5-chunks of a list recovers the list. -/
theorem chunks5_flatten :
    ∀ (n : Nat) (ids : List String), ids.length ≤ n →
      (chunks5 ids).flatten = ids := by
  intro n
  induction n with
  | zero =>
      intro ids hlen
      have hids : ids = [] := List.eq_nil_of_length_eq_zero (by omega)
      subst hids
      rw [chunks5]
      rfl
  | succ k ih =>
      intro ids hlen
      cases ids with
      | nil =>
          rw [chunks5]
          rfl
      | cons a tl =>
          have hdrop : ((a :: tl).drop 5).length ≤ k := by
            simp only [List.length_drop, List.length_cons]
            simp only [List.length_cons] at hlen
            omega
          rw [chunks5_eq_cons]
          simp only [List.flatten_cons, ih ((a :: tl).drop 5) hdrop,
            List.take_append_drop]

/-- Every 5-chunk has at most 5 elements. -/
theorem chunks5_length_le :
    ∀ (n : Nat) (ids : List String), ids.length ≤ n →
      ∀ b ∈ chunks5 ids, b.length ≤ 5 := by
  intro n
  induction n with
  | zero =>
      intro ids hlen b hb
      have hids : ids = [] := List.eq_nil_of_length_eq_zero (by omega)
      subst hids
      rw [chunks5] at hb
      simp at hb
  | succ k ih =>
      intro ids hlen b hb
      cases ids with
      | nil =>
          rw [chunks5] at hb
          simp at hb
      | cons a tl =>
          have hdrop : ((a :: tl).drop 5).length ≤ k := by
            simp only [List.length_drop, List.length_cons]
            simp only [List.length_cons] at hlen
            omega
          rw [chunks5_eq_cons] at hb
          rcases List.mem_cons.mp hb with h | h
          · subst h
            simp [List.length_take]
          · exact ih ((a :: tl).drop 5) hdrop b h

/-- C6 (confirmed): the pagination helpers perform no retry.  When the
request for the `i`-th page raises, `get_trace_summaries_paginated`
returns exactly the summaries accumulated from the first `i` pages,
without re-requesting the failed page; and `get_batch_traces` submits its
trace-id list in successive batches of at most 5, each id exactly once
(so ids of unprocessed or raising batches are never re-submitted), and
the loop terminates because the work list shrinks by 5 each round (the
embedded function is total by that measure). -/
theorem no_retry_spec (α β : Type) (m : Nat) :
    (∀ (i : Nat) (pages : List (PageResult α)),
      0 < m →
      pages[i]? = some PageResult.exn →
      (∀ j, j < i → ∃ tp : TracePage α,
        pages[j]? = some (PageResult.ok tp) ∧
          tokenPresent tp.nextToken = true) →
      (∀ j, j < i →
        (((pages.take (j + 1)).map okTraces).flatten).length < m) →
      get_trace_summaries_paginated m pages =
        ((pages.take i).map okTraces).flatten) ∧
    (∀ (responses : List (BatchResult β)) (ids : List String),
      submittedBatches responses ids = chunks5 ids) ∧
    (∀ (responses : List (BatchResult β)) (ids : List String),
      (submittedBatches responses ids).flatten = ids) ∧
    (∀ (responses : List (BatchResult β)) (ids : List String),
      ∀ b ∈ submittedBatches responses ids, b.length ≤ 5) := by
  refine ⟨?_, ?_, ?_, ?_⟩
  · intro i pages hm hp hprev hbud
    have h := pagGo_exn_result m i pages [] (by simpa using hm) hp hprev
      (fun j hj => by simpa using hbud j hj)
    simpa [get_trace_summaries_paginated] using h
  · intro responses ids
    exact batchGo_snd_eq_chunks ids.length ids le_rfl responses
  · intro responses ids
    rw [submittedBatches, batchGo_snd_eq_chunks ids.length ids le_rfl responses]
    exact chunks5_flatten ids.length ids le_rfl
  · intro responses ids b hb
    rw [submittedBatches,
      batchGo_snd_eq_chunks ids.length ids le_rfl responses] at hb
    exact chunks5_length_le ids.length ids le_rfl b hb

/-- Witness for C6: a raising second page returns only the first page of
traces, and a 6-id batch run submits the ids in chunks whose
concatenation is the original list, the first chunk having 5 elements. -/
theorem no_retry_spec_witness :
    get_trace_summaries_paginated 10
      [PageResult.ok (⟨[1], some "t"⟩ : TracePage Nat), PageResult.exn] =
      [1] ∧
    (submittedBatches ([] : List (BatchResult Nat))
      ["a", "b", "c", "d", "e", "f"]).flatten =
      ["a", "b", "c", "d", "e", "f"] ∧
    (["a", "b", "c", "d", "e"] : List String).length ≤ 5 := by
  refine ⟨?_, ?_, ?_⟩
  · have h := (no_retry_spec Nat Nat 10).1 1
      [PageResult.ok ⟨[1], some "t"⟩, PageResult.exn]
      (by decide) (by decide)
      (by
        intro j hj
        interval_cases j
        exact ⟨⟨[1], some "t"⟩, by decide, by decide⟩)
      (by
        intro j hj
        interval_cases j
        decide)
    simpa [okTraces] using h
  · exact (no_retry_spec Nat Nat 10).2.2.1 [] ["a", "b", "c", "d", "e", "f"]
  · have hmem : (["a", "b", "c", "d", "e"] : List String) ∈
        submittedBatches ([] : List (BatchResult Nat))
          ["a", "b", "c", "d", "e", "f"] := by
      rw [(no_retry_spec Nat Nat 10).2.1 [] ["a", "b", "c", "d", "e", "f"]]
      rw [chunks5_eq_cons]
      simp
    exact (no_retry_spec Nat Nat 10).2.2.2 [] ["a", "b", "c", "d", "e", "f"]
      ["a", "b", "c", "d", "e"] hmem

end AppSignals
